import Mathlib

/-!
Verification of the pvforecast-py client (src/pvforecast/api.py) against its
natural-language specification.

Embedding conventions:
* JSON decoding is an external collaborator; a decoded response body is
  modelled as `Option Json` (`none` when `json.loads` would raise
  `JSONDecodeError`, `some v` when it yields the value `v`).
* The HTTP transport (`urllib.request.urlopen`) is an oracle
  `Transport : String → HTTPResult`: a non-raising response with a status
  and a decoded body, an `HTTPError` carrying a reason and a body text, or
  a `URLError` carrying a reason.
* `lat` and `lon` are floats in the source; every use of them is their
  `str()` rendering inside the query string, so they are carried as opaque
  strings. No claim computes on them.
* Python exceptions are modelled by `PyError`, recording the exception
  class and, where the source formats one, the message. Python dataclass
  field annotations are not enforced at runtime, so the record fields hold
  raw JSON values exactly as the source stores `entry[0]` / `entry[1]`.
* Each client operation returns its result together with the list of URLs
  passed to the transport, so that "performs no network call" is the
  statement that this log is empty.
-/

/-- A JSON value, as produced by the external JSON decoder. -/
inductive Json where
  | null : Json
  | bool (b : Bool) : Json
  | num (n : Int) : Json
  | str (s : String) : Json
  | arr (xs : List Json) : Json
  | obj (fields : List (String × Json)) : Json


/-- A Python exception outcome, recording the exception class and the
formatted message where the source builds one. `jsonDecodeError` is the
error raised by `json.loads`; in Python it subclasses `ValueError`. -/
inductive PyError where
  | valueError (msg : String) : PyError
  | jsonDecodeError : PyError
  | indexError : PyError
  | typeError : PyError
  | keyError : PyError
  | exception (msg : String) : PyError


/-- The Python class under which an error value is raised (the name used in
an `except` clause that catches exactly it). -/
def pyClass : PyError → String
  | .valueError _ => "ValueError"
  | .jsonDecodeError => "JSONDecodeError"
  | .indexError => "IndexError"
  | .typeError => "TypeError"
  | .keyError => "KeyError"
  | .exception _ => "Exception"

/-- Whether an error value would be caught by `except ValueError` in Python:
`JSONDecodeError` is a subclass of `ValueError`. -/
def isValueErrorSubclass : PyError → Bool
  | .valueError _ => true
  | .jsonDecodeError => true
  | _ => false

/-- Outcome of one `urllib.request.urlopen` call: a non-raising response
(status plus decoded body), an `HTTPError` (reason plus body text read from
the error), or a `URLError` (reason only). -/
inductive HTTPResult where
  | success (status : Nat) (body : Option Json) : HTTPResult
  | httpError (reason : String) (body : String) : HTTPResult
  | urlError (reason : String) : HTTPResult

/-- The HTTP transport as an oracle from the request URL to its outcome. -/
abbrev Transport := String → HTTPResult

/-- Python `entry[i]` for a nonnegative literal index on a decoded JSON
value: lists index positionally, strings yield one-character strings,
dicts with an integer key raise `KeyError`, everything else raises
`TypeError`; out-of-range indexing raises `IndexError`. -/
def pyIndex : Json → Nat → Except PyError Json
  | .arr xs, i =>
    match xs.get? i with
    | some v => .ok v
    | none => .error .indexError
  | .str s, i =>
    match s.data.get? i with
    | some c => .ok (.str (String.mk [c]))
    | none => .error .indexError
  | .obj _, _ => .error .keyError
  | _, _ => .error .typeError

/-- Python iteration `for entry in raw_data` on a decoded JSON value:
lists yield their elements, strings their characters, dicts their keys;
null, booleans and numbers raise `TypeError`. -/
def pyIter : Json → Except PyError (List Json)
  | .arr xs => .ok xs
  | .str s => .ok (s.data.map fun c => Json.str (String.mk [c]))
  | .obj fs => .ok (fs.map fun f => Json.str f.1)
  | _ => .error .typeError

/-- Dataclass `HourlyForecast`: fields hold whatever `entry[0]` / `entry[1]`
produced, since Python does not enforce the annotations. -/
structure HourlyForecast where
  timestamp : Json
  irradiance : Json


/-- Dataclass `DailyForecast`; `total_irradiance` is `Json.null` exactly when
the source stores Python `None`. -/
structure DailyForecast where
  timestamp : Json
  total_irradiance : Json


/-- Dataclass `HourlyForecastData`, the wrapper around the hourly list. -/
structure HourlyForecastData where
  forecasts : List HourlyForecast


/-- Dataclass `DailyForecastData` as written in the source (it wraps a list
of `HourlyForecast` and is never constructed by the parsing code). -/
structure DailyForecastData where
  forecasts : List HourlyForecast


/-- The value `_parse_json` returns: an `HourlyForecastData` for the
"hour" branch, a bare list of `DailyForecast` for the "day" branch. -/
inductive ParseResult where
  | hourly (d : HourlyForecastData) : ParseResult
  | daily (l : List DailyForecast) : ParseResult


/-- The hourly list comprehension in `_parse_json`: for each entry, evaluate
`entry[0]` then `entry[1]` and build an `HourlyForecast`; the first raised
error aborts the comprehension. -/
def parseEntriesHour : List Json → Except PyError (List HourlyForecast)
  | [] => .ok []
  | e :: rest =>
    match pyIndex e 0 with
    | .error err => .error err
    | .ok t =>
      match pyIndex e 1 with
      | .error err => .error err
      | .ok v =>
        match parseEntriesHour rest with
        | .error err => .error err
        | .ok tail => .ok (HourlyForecast.mk t v :: tail)

/-- The daily list comprehension in `_parse_json`. -/
def parseEntriesDay : List Json → Except PyError (List DailyForecast)
  | [] => .ok []
  | e :: rest =>
    match pyIndex e 0 with
    | .error err => .error err
    | .ok t =>
      match pyIndex e 1 with
      | .error err => .error err
      | .ok v =>
        match parseEntriesDay rest with
        | .error err => .error err
        | .ok tail => .ok (DailyForecast.mk t v :: tail)

/-- `PVForecast._parse_json`: `json.loads` first (its failure is the decode
error), then dispatch on `forecast_type`, iterating the raw value through
the matching comprehension. -/
def parse_json (data : Option Json) (forecast_type : String) : Except PyError ParseResult :=
  match data with
  | none => .error .jsonDecodeError
  | some raw =>
    if forecast_type = "hour" then
      match pyIter raw with
      | .error e => .error e
      | .ok entries =>
        match parseEntriesHour entries with
        | .error e => .error e
        | .ok fs => .ok (.hourly (HourlyForecastData.mk fs))
    else if forecast_type = "day" then
      match pyIter raw with
      | .error e => .error e
      | .ok entries =>
        match parseEntriesDay entries with
        | .error e => .error e
        | .ok fs => .ok (.daily fs)
    else
      .error (.valueError "Invalid time_type. Should be \x27hour\x27 or \x27day\x27.")

/-- Hexadecimal digit used by percent-encoding (uppercase, as in urllib). -/
def hexDigit (n : Nat) : Char :=
  if n < 10 then Char.ofNat (48 + n) else Char.ofNat (55 + n)

/-- UTF-8 encoding of a Unicode code point as a list of byte values. -/
def utf8Bytes (n : Nat) : List Nat :=
  if n < 128 then [n]
  else if n < 2048 then [192 + n / 64, 128 + n % 64]
  else if n < 65536 then [224 + n / 4096, 128 + (n / 64) % 64, 128 + n % 64]
  else [240 + n / 262144, 128 + (n / 4096) % 64, 128 + (n / 64) % 64, 128 + n % 64]

/-- Characters `urllib.parse.quote_plus` never encodes: ASCII alphanumerics
and the four always-safe punctuation characters. -/
def isSafeChar (c : Char) : Bool :=
  c.isAlphanum || c = '_' || c = '.' || c = '-' || c = '~'

/-- Percent-encoding of one byte value. -/
def percentEncodeByte (b : Nat) : String :=
  String.mk ['%', hexDigit (b / 16), hexDigit (b % 16)]

/-- `urllib.parse.quote_plus`: spaces become `+`, safe characters pass
through, everything else is percent-encoded bytewise in UTF-8. -/
def quote_plus (s : String) : String :=
  String.join (s.data.map fun c =>
    if c = ' ' then "+"
    else if isSafeChar c then String.mk [c]
    else String.join ((utf8Bytes c.toNat).map percentEncodeByte))

/-- `urllib.parse.urlencode` over the insertion-ordered key/value pairs of
the params dict, values already rendered through `str()`. -/
def urlencode (ps : List (String × String)) : String :=
  String.intercalate "&" (ps.map fun p => quote_plus p.1 ++ "=" ++ quote_plus p.2)

/-- `PVForecast.BASE_URL`. -/
def BASE_URL : String := "http://www.pvforecast.cz/api/"

/-- The params dict built by `get_hourly_irradiance`, in insertion order,
with the integer values rendered through `str()`. -/
def hourly_params (api_key lat lon : String) (length dst : Int) (start : String) :
    List (String × String) :=
  [("key", api_key), ("lat", lat), ("lon", lon), ("forecast", "pv"), ("format", "json"),
    ("type", "hour"), ("number", toString length), ("dst", toString dst), ("start", start)]

/-- The params dict built by `get_daily_irradiance`. -/
def daily_params (api_key lat lon : String) (length dst : Int) (start : String) :
    List (String × String) :=
  [("key", api_key), ("lat", lat), ("lon", lon), ("forecast", "pv"), ("format", "json"),
    ("type", "day"), ("number", toString length), ("dst", toString dst), ("start", start)]

/-- The URL requested by `get_hourly_irradiance`. -/
def hourly_url (api_key lat lon : String) (length dst : Int) (start : String) : String :=
  BASE_URL ++ "?" ++ urlencode (hourly_params api_key lat lon length dst start)

/-- The URL requested by `get_daily_irradiance`. -/
def daily_url (api_key lat lon : String) (length dst : Int) (start : String) : String :=
  BASE_URL ++ "?" ++ urlencode (daily_params api_key lat lon length dst start)

/-- The `try`-block shared by both operations: call the transport on `url`,
parse on status 200, raise on any other status, and re-raise `HTTPError` /
`URLError` with the formatted messages of the source. The second component
logs the URLs passed to the transport. -/
def fetch_and_parse (t : Transport) (url : String) (forecast_type : String) :
    Except PyError ParseResult × List String :=
  match t url with
  | .success status body =>
    if status = 200 then (parse_json body forecast_type, [url])
    else (.error (.exception ("Failed to fetch data: HTTP " ++ toString status)), [url])
  | .httpError reason msg =>
    (.error (.exception ("Failed get data: " ++ reason ++ " - " ++ msg)), [url])
  | .urlError reason =>
    (.error (.exception ("Failed to reach server: " ++ reason)), [url])

/-- `PVForecast.get_hourly_irradiance`: validate `length`, `dst`, `start`
in that order (raising `ValueError` before any network use), then build the
URL and fetch. -/
def get_hourly_irradiance (t : Transport) (api_key lat lon : String)
    (length dst : Int) (start : String) : Except PyError ParseResult × List String :=
  if length ∉ ([24, 48, 72] : List Int) then
    (.error (.valueError "Invalid length. Should be 24, 48 or 72."), [])
  else if dst ∉ ([0, 1] : List Int) then
    (.error (.valueError "Invalid dst. Should be 0 or 1."), [])
  else if start ∉ (["today", "tomorrow", "auto"] : List String) then
    (.error (.valueError "Invalid start. Should be \x27today\x27, \x27tomorrow\x27, or \x27auto\x27."), [])
  else
    fetch_and_parse t (hourly_url api_key lat lon length dst start) "hour"

/-- `PVForecast.get_daily_irradiance`: same shape with the daily length set
and `type=day`. -/
def get_daily_irradiance (t : Transport) (api_key lat lon : String)
    (length dst : Int) (start : String) : Except PyError ParseResult × List String :=
  if length ∉ ([1, 2, 3] : List Int) then
    (.error (.valueError "Invalid length. Should be 1, 2 or 3."), [])
  else if dst ∉ ([0, 1] : List Int) then
    (.error (.valueError "Invalid dst. Should be 0 or 1."), [])
  else if start ∉ (["today", "tomorrow", "auto"] : List String) then
    (.error (.valueError "Invalid start. Should be \x27today\x27, \x27tomorrow\x27, or \x27auto\x27."), [])
  else
    fetch_and_parse t (daily_url api_key lat lon length dst start) "day"

/-- Modelled from the words of the spec, section 6: the query parameters a
request must carry — key, lat, lon, forecast=pv, format=json, type, number
(the length value), dst, start — and nothing else. Used to compare the
URL the code builds against the parameter list the spec prescribes. -/
def specQueryParams (api_key lat lon : String) (call_type : String)
    (length dst : Int) (start : String) : List (String × String) :=
  [("key", api_key), ("lat", lat), ("lon", lon), ("forecast", "pv"), ("format", "json"),
    ("type", call_type), ("number", toString length), ("dst", toString dst), ("start", start)]


/-- With all three preconditions satisfied, the hourly operation reduces to
the fetch step on the hourly URL. -/
lemma get_hourly_valid (t : Transport) (api_key lat lon : String)
    (length dst : Int) (start : String)
    (hlen : length ∈ ([24, 48, 72] : List Int)) (hdst : dst ∈ ([0, 1] : List Int))
    (hstart : start ∈ (["today", "tomorrow", "auto"] : List String)) :
    get_hourly_irradiance t api_key lat lon length dst start
      = fetch_and_parse t (hourly_url api_key lat lon length dst start) "hour" := by
  unfold get_hourly_irradiance
  rw [if_neg (not_not_intro hlen), if_neg (not_not_intro hdst), if_neg (not_not_intro hstart)]

/-- With all three preconditions satisfied, the daily operation reduces to
the fetch step on the daily URL. -/
lemma get_daily_valid (t : Transport) (api_key lat lon : String)
    (length dst : Int) (start : String)
    (hlen : length ∈ ([1, 2, 3] : List Int)) (hdst : dst ∈ ([0, 1] : List Int))
    (hstart : start ∈ (["today", "tomorrow", "auto"] : List String)) :
    get_daily_irradiance t api_key lat lon length dst start
      = fetch_and_parse t (daily_url api_key lat lon length dst start) "day" := by
  unfold get_daily_irradiance
  rw [if_neg (not_not_intro hlen), if_neg (not_not_intro hdst), if_neg (not_not_intro hstart)]

/-- The fetch step always logs exactly one transport call, on its URL. -/
lemma fetch_and_parse_log (t : Transport) (url ft : String) :
    (fetch_and_parse t url ft).2 = [url] := by
  unfold fetch_and_parse
  cases t url with
  | success status body =>
    dsimp only
    split <;> rfl
  | httpError reason msg => rfl
  | urlError reason => rfl

/-- The hourly comprehension on a list of well-shaped two-element arrays
maps each pair positionally into a record. -/
lemma parseEntriesHour_map_pairs (pairs : List (Json × Json)) :
    parseEntriesHour (pairs.map fun p => Json.arr [p.1, p.2])
      = .ok (pairs.map fun p => HourlyForecast.mk p.1 p.2) := by
  induction pairs with
  | nil => rfl
  | cons p rest ih =>
    simp only [List.map_cons, parseEntriesHour, pyIndex, ih]
    rfl

/-- The daily comprehension on a list of well-shaped two-element arrays
maps each pair positionally into a record. -/
lemma parseEntriesDay_map_pairs (pairs : List (Json × Json)) :
    parseEntriesDay (pairs.map fun p => Json.arr [p.1, p.2])
      = .ok (pairs.map fun p => DailyForecast.mk p.1 p.2) := by
  induction pairs with
  | nil => rfl
  | cons p rest ih =>
    simp only [List.map_cons, parseEntriesDay, pyIndex, ih]
    rfl

/-- C1: a successful call (status 200) whose body decodes to the JSON array
holding the single pair of timestamp "2023-10-01T00:00:00Z" and 1000 yields,
through the hourly operation, a single-element sequence with that timestamp
and irradiance 1000, and through the daily operation a single-element
sequence with that timestamp and total-irradiance 1000; the pair is mapped
positionally. -/
theorem c1_single_pair_roundtrip (t : Transport) (api_key lat lon : String)
    (lenH lenD dst : Int) (start : String)
    (hH : lenH ∈ ([24, 48, 72] : List Int)) (hD : lenD ∈ ([1, 2, 3] : List Int))
    (hdst : dst ∈ ([0, 1] : List Int))
    (hstart : start ∈ (["today", "tomorrow", "auto"] : List String))
    (ht : ∀ u, t u = .success 200
      (some (.arr [.arr [.str "2023-10-01T00:00:00Z", .num 1000]]))) :
    (get_hourly_irradiance t api_key lat lon lenH dst start).1
        = .ok (.hourly (HourlyForecastData.mk
            [HourlyForecast.mk (.str "2023-10-01T00:00:00Z") (.num 1000)]))
    ∧ (get_daily_irradiance t api_key lat lon lenD dst start).1
        = .ok (.daily [DailyForecast.mk (.str "2023-10-01T00:00:00Z") (.num 1000)]) := by
  rw [get_hourly_valid t api_key lat lon lenH dst start hH hdst hstart,
    get_daily_valid t api_key lat lon lenD dst start hD hdst hstart]
  unfold fetch_and_parse
  rw [ht, ht]
  exact ⟨rfl, rfl⟩

/-- Witness for C1 at a concrete transport and the default parameters. -/
theorem c1_single_pair_roundtrip_witness :
    ((24 : Int) ∈ ([24, 48, 72] : List Int))
    ∧ ((1 : Int) ∈ ([1, 2, 3] : List Int))
    ∧ ((1 : Int) ∈ ([0, 1] : List Int))
    ∧ ("auto" ∈ (["today", "tomorrow", "auto"] : List String))
    ∧ (get_hourly_irradiance
          (fun _ => .success 200
            (some (.arr [.arr [.str "2023-10-01T00:00:00Z", .num 1000]])))
          "test_key" "50.0" "14.0" 24 1 "auto").1
        = .ok (.hourly (HourlyForecastData.mk
            [HourlyForecast.mk (.str "2023-10-01T00:00:00Z") (.num 1000)]))
    ∧ (get_daily_irradiance
          (fun _ => .success 200
            (some (.arr [.arr [.str "2023-10-01T00:00:00Z", .num 1000]])))
          "test_key" "50.0" "14.0" 1 1 "auto").1
        = .ok (.daily [DailyForecast.mk (.str "2023-10-01T00:00:00Z") (.num 1000)]) := by
  refine ⟨by decide, by decide, by decide, by decide, ?_, ?_⟩
  · exact (c1_single_pair_roundtrip _ "test_key" "50.0" "14.0" 24 1 1 "auto"
      (by decide) (by decide) (by decide) (by decide) (fun _ => rfl)).1
  · exact (c1_single_pair_roundtrip _ "test_key" "50.0" "14.0" 24 1 1 "auto"
      (by decide) (by decide) (by decide) (by decide) (fun _ => rfl)).2

/-- C3: a successful daily call whose body decodes to the array holding the
single pair of timestamp "2023-10-02T00:00:00Z" and null yields a record
whose total-irradiance is the absent value (Python None, modelled as
Json.null), which is distinct from the value zero. -/
theorem c3_daily_null_is_absent (t : Transport) (api_key lat lon : String)
    (lenD dst : Int) (start : String)
    (hD : lenD ∈ ([1, 2, 3] : List Int)) (hdst : dst ∈ ([0, 1] : List Int))
    (hstart : start ∈ (["today", "tomorrow", "auto"] : List String))
    (ht : ∀ u, t u = .success 200
      (some (.arr [.arr [.str "2023-10-02T00:00:00Z", .null]]))) :
    (get_daily_irradiance t api_key lat lon lenD dst start).1
        = .ok (.daily [DailyForecast.mk (.str "2023-10-02T00:00:00Z") Json.null])
    ∧ (DailyForecast.mk (.str "2023-10-02T00:00:00Z") Json.null).total_irradiance = Json.null
    ∧ Json.null ≠ Json.num 0 := by
  refine ⟨?_, rfl, fun h => Json.noConfusion h⟩
  rw [get_daily_valid t api_key lat lon lenD dst start hD hdst hstart]
  unfold fetch_and_parse
  rw [ht]
  rfl

/-- Witness for C3 at a concrete transport and the default parameters. -/
theorem c3_daily_null_is_absent_witness :
    ((1 : Int) ∈ ([1, 2, 3] : List Int))
    ∧ ((1 : Int) ∈ ([0, 1] : List Int))
    ∧ ("auto" ∈ (["today", "tomorrow", "auto"] : List String))
    ∧ (get_daily_irradiance
          (fun _ => .success 200 (some (.arr [.arr [.str "2023-10-02T00:00:00Z", .null]])))
          "test_key" "50.0" "14.0" 1 1 "auto").1
        = .ok (.daily [DailyForecast.mk (.str "2023-10-02T00:00:00Z") Json.null])
    ∧ Json.null ≠ Json.num 0 := by
  refine ⟨by decide, by decide, by decide, ?_, ?_⟩
  · exact (c3_daily_null_is_absent _ "test_key" "50.0" "14.0" 1 1 "auto"
      (by decide) (by decide) (by decide) (fun _ => rfl)).1
  · exact (c3_daily_null_is_absent _ "test_key" "50.0" "14.0" 1 1 "auto"
      (by decide) (by decide) (by decide) (fun _ => rfl)).2.2

/-- C4: an hourly length outside 24, 48, 72 raises the length ValueError
with no transport call, and a daily length outside 1, 2, 3 likewise —
whatever the remaining arguments are. -/
theorem c4_invalid_length_no_network (t : Transport) (api_key lat lon : String)
    (lenH lenD dst : Int) (start : String)
    (hH : lenH ∉ ([24, 48, 72] : List Int)) (hD : lenD ∉ ([1, 2, 3] : List Int)) :
    get_hourly_irradiance t api_key lat lon lenH dst start
        = (.error (.valueError "Invalid length. Should be 24, 48 or 72."), [])
    ∧ get_daily_irradiance t api_key lat lon lenD dst start
        = (.error (.valueError "Invalid length. Should be 1, 2 or 3."), []) := by
  constructor
  · unfold get_hourly_irradiance
    rw [if_pos hH]
  · unfold get_daily_irradiance
    rw [if_pos hD]

/-- Witness for C4 with the out-of-range lengths used by the test suite. -/
theorem c4_invalid_length_no_network_witness :
    ((12 : Int) ∉ ([24, 48, 72] : List Int))
    ∧ ((5 : Int) ∉ ([1, 2, 3] : List Int))
    ∧ get_hourly_irradiance (fun _ => .urlError "unused") "test_key" "50.0" "14.0" 12 1 "auto"
        = (.error (.valueError "Invalid length. Should be 24, 48 or 72."), [])
    ∧ get_daily_irradiance (fun _ => .urlError "unused") "test_key" "50.0" "14.0" 5 1 "auto"
        = (.error (.valueError "Invalid length. Should be 1, 2 or 3."), []) := by
  refine ⟨by decide, by decide, ?_, ?_⟩
  · exact (c4_invalid_length_no_network _ "test_key" "50.0" "14.0" 12 5 1 "auto"
      (by decide) (by decide)).1
  · exact (c4_invalid_length_no_network _ "test_key" "50.0" "14.0" 12 5 1 "auto"
      (by decide) (by decide)).2

/-- C5: a dst outside 0, 1 makes both operations raise a ValueError with no
transport call, whatever the remaining arguments are (when the length is
also invalid, the length ValueError fires first — still a parameter error
and still before any network use). -/
theorem c5_invalid_dst_no_network (t : Transport) (api_key lat lon : String)
    (lenH lenD dst : Int) (start : String) (hdst : dst ∉ ([0, 1] : List Int)) :
    ((get_hourly_irradiance t api_key lat lon lenH dst start).2 = []
      ∧ ∃ m, (get_hourly_irradiance t api_key lat lon lenH dst start).1
          = .error (.valueError m))
    ∧ ((get_daily_irradiance t api_key lat lon lenD dst start).2 = []
      ∧ ∃ m, (get_daily_irradiance t api_key lat lon lenD dst start).1
          = .error (.valueError m)) := by
  constructor
  · unfold get_hourly_irradiance
    by_cases hH : lenH ∈ ([24, 48, 72] : List Int)
    · rw [if_neg (not_not_intro hH), if_pos hdst]
      exact ⟨rfl, _, rfl⟩
    · rw [if_pos hH]
      exact ⟨rfl, _, rfl⟩
  · unfold get_daily_irradiance
    by_cases hD : lenD ∈ ([1, 2, 3] : List Int)
    · rw [if_neg (not_not_intro hD), if_pos hdst]
      exact ⟨rfl, _, rfl⟩
    · rw [if_pos hD]
      exact ⟨rfl, _, rfl⟩

/-- Witness for C5 with dst 2, as in the test suite. -/
theorem c5_invalid_dst_no_network_witness :
    ((2 : Int) ∉ ([0, 1] : List Int))
    ∧ ((get_hourly_irradiance (fun _ => .urlError "unused") "test_key" "50.0" "14.0" 24 2 "auto").2 = []
      ∧ ∃ m, (get_hourly_irradiance (fun _ => .urlError "unused") "test_key" "50.0" "14.0" 24 2 "auto").1
          = .error (.valueError m))
    ∧ ((get_daily_irradiance (fun _ => .urlError "unused") "test_key" "50.0" "14.0" 1 2 "auto").2 = []
      ∧ ∃ m, (get_daily_irradiance (fun _ => .urlError "unused") "test_key" "50.0" "14.0" 1 2 "auto").1
          = .error (.valueError m)) :=
  ⟨by decide,
    (c5_invalid_dst_no_network _ "test_key" "50.0" "14.0" 24 1 2 "auto" (by decide)).1,
    (c5_invalid_dst_no_network _ "test_key" "50.0" "14.0" 24 1 2 "auto" (by decide)).2⟩

/-- C6: a start outside today, tomorrow, auto makes both operations raise a
ValueError with no transport call, whatever the remaining arguments are
(an earlier length or dst violation fires its own ValueError first, still
before any network use). -/
theorem c6_invalid_start_no_network (t : Transport) (api_key lat lon : String)
    (lenH lenD dst : Int) (start : String)
    (hstart : start ∉ (["today", "tomorrow", "auto"] : List String)) :
    ((get_hourly_irradiance t api_key lat lon lenH dst start).2 = []
      ∧ ∃ m, (get_hourly_irradiance t api_key lat lon lenH dst start).1
          = .error (.valueError m))
    ∧ ((get_daily_irradiance t api_key lat lon lenD dst start).2 = []
      ∧ ∃ m, (get_daily_irradiance t api_key lat lon lenD dst start).1
          = .error (.valueError m)) := by
  constructor
  · unfold get_hourly_irradiance
    by_cases hH : lenH ∈ ([24, 48, 72] : List Int)
    · rw [if_neg (not_not_intro hH)]
      by_cases hdst : dst ∈ ([0, 1] : List Int)
      · rw [if_neg (not_not_intro hdst), if_pos hstart]
        exact ⟨rfl, _, rfl⟩
      · rw [if_pos hdst]
        exact ⟨rfl, _, rfl⟩
    · rw [if_pos hH]
      exact ⟨rfl, _, rfl⟩
  · unfold get_daily_irradiance
    by_cases hD : lenD ∈ ([1, 2, 3] : List Int)
    · rw [if_neg (not_not_intro hD)]
      by_cases hdst : dst ∈ ([0, 1] : List Int)
      · rw [if_neg (not_not_intro hdst), if_pos hstart]
        exact ⟨rfl, _, rfl⟩
      · rw [if_pos hdst]
        exact ⟨rfl, _, rfl⟩
    · rw [if_pos hD]
      exact ⟨rfl, _, rfl⟩

/-- Witness for C6 with the start value used by the test suite. -/
theorem c6_invalid_start_no_network_witness :
    ("invalid" ∉ (["today", "tomorrow", "auto"] : List String))
    ∧ ((get_hourly_irradiance (fun _ => .urlError "unused") "test_key" "50.0" "14.0" 24 1 "invalid").2 = []
      ∧ ∃ m, (get_hourly_irradiance (fun _ => .urlError "unused") "test_key" "50.0" "14.0" 24 1 "invalid").1
          = .error (.valueError m))
    ∧ ((get_daily_irradiance (fun _ => .urlError "unused") "test_key" "50.0" "14.0" 1 1 "invalid").2 = []
      ∧ ∃ m, (get_daily_irradiance (fun _ => .urlError "unused") "test_key" "50.0" "14.0" 1 1 "invalid").1
          = .error (.valueError m)) :=
  ⟨by decide,
    (c6_invalid_start_no_network _ "test_key" "50.0" "14.0" 24 1 1 "invalid" (by decide)).1,
    (c6_invalid_start_no_network _ "test_key" "50.0" "14.0" 24 1 1 "invalid" (by decide)).2⟩

/-- On a transport answer with status 200, the fetch step parses the body. -/
lemma fetch_and_parse_200 (t : Transport) (url ft : String) (body : Option Json)
    (ht : t url = .success 200 body) :
    fetch_and_parse t url ft = (parse_json body ft, [url]) := by
  unfold fetch_and_parse
  rw [ht]
  rfl

/-- On a transport answer with any other status, the fetch step raises. -/
lemma fetch_and_parse_non200 (t : Transport) (url ft : String) (status : Nat)
    (body : Option Json) (ht : t url = .success status body) (hs : status ≠ 200) :
    fetch_and_parse t url ft
      = (.error (.exception ("Failed to fetch data: HTTP " ++ toString status)), [url]) := by
  unfold fetch_and_parse
  rw [ht]
  dsimp only
  rw [if_neg hs]

/-- On an HTTPError, the fetch step raises the formatted remote message. -/
lemma fetch_and_parse_httpError (t : Transport) (url ft reason msg : String)
    (ht : t url = .httpError reason msg) :
    fetch_and_parse t url ft
      = (.error (.exception ("Failed get data: " ++ reason ++ " - " ++ msg)), [url]) := by
  unfold fetch_and_parse
  rw [ht]

/-- On a URLError, the fetch step raises the formatted transport message. -/
lemma fetch_and_parse_urlError (t : Transport) (url ft reason : String)
    (ht : t url = .urlError reason) :
    fetch_and_parse t url ft
      = (.error (.exception ("Failed to reach server: " ++ reason)), [url]) := by
  unfold fetch_and_parse
  rw [ht]

/-- Parsing a well-shaped array of pairs through the hour branch. -/
lemma parse_json_hour_pairs (pairs : List (Json × Json)) :
    parse_json (some (.arr (pairs.map fun p => Json.arr [p.1, p.2]))) "hour"
      = .ok (.hourly (HourlyForecastData.mk (pairs.map fun p => HourlyForecast.mk p.1 p.2))) := by
  simp only [parse_json, pyIter, parseEntriesHour_map_pairs, if_true, reduceIte]

/-- Parsing a well-shaped array of pairs through the day branch. -/
lemma parse_json_day_pairs (pairs : List (Json × Json)) :
    parse_json (some (.arr (pairs.map fun p => Json.arr [p.1, p.2]))) "day"
      = .ok (.daily (pairs.map fun p => DailyForecast.mk p.1 p.2)) := by
  simp only [parse_json, pyIter, parseEntriesDay_map_pairs, if_true, reduceIte]
  rw [if_neg (by decide)]

/-- C2: a successful call whose body decodes to an array of N two-element
arrays yields a sequence of exactly N records, the record at each index
built positionally from the pair at the same index, and the daily record's
total-irradiance at each index is exactly the second element the server
sent there — so it is the absent value precisely when the server sent
null. -/
theorem c2_length_order_optionals (pairs : List (Json × Json)) (t : Transport)
    (api_key lat lon : String) (lenH lenD dst : Int) (start : String)
    (hH : lenH ∈ ([24, 48, 72] : List Int)) (hD : lenD ∈ ([1, 2, 3] : List Int))
    (hdst : dst ∈ ([0, 1] : List Int))
    (hstart : start ∈ (["today", "tomorrow", "auto"] : List String))
    (ht : ∀ u, t u = .success 200 (some (.arr (pairs.map fun p => Json.arr [p.1, p.2])))) :
    ∃ hfs dfs,
      (get_hourly_irradiance t api_key lat lon lenH dst start).1
          = .ok (.hourly (HourlyForecastData.mk hfs))
      ∧ (get_daily_irradiance t api_key lat lon lenD dst start).1 = .ok (.daily dfs)
      ∧ hfs.length = pairs.length
      ∧ dfs.length = pairs.length
      ∧ (∀ i : Nat, hfs[i]? = pairs[i]?.map fun p => HourlyForecast.mk p.1 p.2)
      ∧ (∀ i : Nat, dfs[i]? = pairs[i]?.map fun p => DailyForecast.mk p.1 p.2)
      ∧ (∀ (i : Nat) (q : Json × Json), pairs[i]? = some q →
          ∃ d, dfs[i]? = some d ∧ (d.total_irradiance = Json.null ↔ q.2 = Json.null)) := by
  refine ⟨pairs.map fun p => HourlyForecast.mk p.1 p.2,
    pairs.map fun p => DailyForecast.mk p.1 p.2, ?_, ?_, by simp, by simp, ?_, ?_, ?_⟩
  · rw [get_hourly_valid t api_key lat lon lenH dst start hH hdst hstart,
      fetch_and_parse_200 t _ "hour" _ (ht _)]
    exact parse_json_hour_pairs pairs
  · rw [get_daily_valid t api_key lat lon lenD dst start hD hdst hstart,
      fetch_and_parse_200 t _ "day" _ (ht _)]
    exact parse_json_day_pairs pairs
  · intro i
    simp [List.getElem?_map]
  · intro i
    simp [List.getElem?_map]
  · intro i q hq
    exact ⟨DailyForecast.mk q.1 q.2, by simp [List.getElem?_map, hq], Iff.rfl⟩

/-- Witness for C2 on a concrete two-pair body, the second pair null. -/
theorem c2_length_order_optionals_witness :
    ((24 : Int) ∈ ([24, 48, 72] : List Int))
    ∧ ((1 : Int) ∈ ([1, 2, 3] : List Int))
    ∧ ((1 : Int) ∈ ([0, 1] : List Int))
    ∧ ("auto" ∈ (["today", "tomorrow", "auto"] : List String))
    ∧ (∃ hfs dfs,
        (get_hourly_irradiance
            (fun _ => .success 200 (some (.arr
              ([((Json.str "2023-10-01T00:00:00Z"), (Json.num 1000)),
                ((Json.str "2023-10-02T00:00:00Z"), Json.null)].map
                  fun p => Json.arr [p.1, p.2]))))
            "test_key" "50.0" "14.0" 24 1 "auto").1
          = .ok (.hourly (HourlyForecastData.mk hfs))
        ∧ (get_daily_irradiance
            (fun _ => .success 200 (some (.arr
              ([((Json.str "2023-10-01T00:00:00Z"), (Json.num 1000)),
                ((Json.str "2023-10-02T00:00:00Z"), Json.null)].map
                  fun p => Json.arr [p.1, p.2]))))
            "test_key" "50.0" "14.0" 1 1 "auto").1 = .ok (.daily dfs)
        ∧ hfs.length = 2
        ∧ dfs.length = 2
        ∧ (∀ i : Nat, hfs[i]?
            = ([((Json.str "2023-10-01T00:00:00Z"), (Json.num 1000)),
                ((Json.str "2023-10-02T00:00:00Z"), Json.null)] :
                  List (Json × Json))[i]?.map fun p => HourlyForecast.mk p.1 p.2)
        ∧ (∀ i : Nat, dfs[i]?
            = ([((Json.str "2023-10-01T00:00:00Z"), (Json.num 1000)),
                ((Json.str "2023-10-02T00:00:00Z"), Json.null)] :
                  List (Json × Json))[i]?.map fun p => DailyForecast.mk p.1 p.2)
        ∧ (∀ (i : Nat) (q : Json × Json),
            ([((Json.str "2023-10-01T00:00:00Z"), (Json.num 1000)),
              ((Json.str "2023-10-02T00:00:00Z"), Json.null)] :
                List (Json × Json))[i]? = some q →
            ∃ d, dfs[i]? = some d ∧ (d.total_irradiance = Json.null ↔ q.2 = Json.null))) := by
  refine ⟨by decide, by decide, by decide, by decide, ?_⟩
  exact c2_length_order_optionals
    [((Json.str "2023-10-01T00:00:00Z"), (Json.num 1000)),
      ((Json.str "2023-10-02T00:00:00Z"), Json.null)]
    _ "test_key" "50.0" "14.0" 24 1 1 "auto"
    (by decide) (by decide) (by decide) (by decide) (fun _ => rfl)

/-- C9: for every valid parameter combination, each operation performs
exactly one transport call, whose URL is the fixed base URL followed by the
urlencoding of exactly the query parameters the spec lists — key, lat, lon,
forecast=pv, format=json, type hour or day, number equal to the length,
dst, start — and nothing else. (The transport model carries a URL and no
request body.) -/
theorem c9_request_url_exact (t : Transport) (api_key lat lon : String)
    (lenH lenD dst : Int) (start : String)
    (hH : lenH ∈ ([24, 48, 72] : List Int)) (hD : lenD ∈ ([1, 2, 3] : List Int))
    (hdst : dst ∈ ([0, 1] : List Int))
    (hstart : start ∈ (["today", "tomorrow", "auto"] : List String)) :
    (get_hourly_irradiance t api_key lat lon lenH dst start).2
        = [BASE_URL ++ "?" ++ urlencode (specQueryParams api_key lat lon "hour" lenH dst start)]
    ∧ (get_daily_irradiance t api_key lat lon lenD dst start).2
        = [BASE_URL ++ "?" ++ urlencode (specQueryParams api_key lat lon "day" lenD dst start)] := by
  rw [get_hourly_valid t api_key lat lon lenH dst start hH hdst hstart,
    get_daily_valid t api_key lat lon lenD dst start hD hdst hstart,
    fetch_and_parse_log, fetch_and_parse_log]
  exact ⟨rfl, rfl⟩

/-- Witness for C9 at concrete parameters and an arbitrary transport. -/
theorem c9_request_url_exact_witness :
    ((48 : Int) ∈ ([24, 48, 72] : List Int))
    ∧ ((2 : Int) ∈ ([1, 2, 3] : List Int))
    ∧ ((0 : Int) ∈ ([0, 1] : List Int))
    ∧ ("tomorrow" ∈ (["today", "tomorrow", "auto"] : List String))
    ∧ (get_hourly_irradiance (fun _ => .urlError "down") "test_key" "50.0" "14.0" 48 0 "tomorrow").2
        = [BASE_URL ++ "?" ++ urlencode (specQueryParams "test_key" "50.0" "14.0" "hour" 48 0 "tomorrow")]
    ∧ (get_daily_irradiance (fun _ => .urlError "down") "test_key" "50.0" "14.0" 2 0 "tomorrow").2
        = [BASE_URL ++ "?" ++ urlencode (specQueryParams "test_key" "50.0" "14.0" "day" 2 0 "tomorrow")] := by
  refine ⟨by decide, by decide, by decide, by decide, ?_, ?_⟩
  · exact (c9_request_url_exact _ "test_key" "50.0" "14.0" 48 2 0 "tomorrow"
      (by decide) (by decide) (by decide) (by decide)).1
  · exact (c9_request_url_exact _ "test_key" "50.0" "14.0" 48 2 0 "tomorrow"
      (by decide) (by decide) (by decide) (by decide)).2

/-- C10: when the transport returns a response without raising, the body is
parsed exactly when the status is 200; every other status — including other
2xx codes — makes both operations raise the status exception instead of
returning forecast data. -/
theorem c10_parse_only_on_200 (t : Transport) (api_key lat lon : String)
    (lenH lenD dst : Int) (start : String) (status : Nat) (body : Option Json)
    (hH : lenH ∈ ([24, 48, 72] : List Int)) (hD : lenD ∈ ([1, 2, 3] : List Int))
    (hdst : dst ∈ ([0, 1] : List Int))
    (hstart : start ∈ (["today", "tomorrow", "auto"] : List String))
    (ht : ∀ u, t u = .success status body) :
    (status = 200 →
      (get_hourly_irradiance t api_key lat lon lenH dst start).1 = parse_json body "hour"
      ∧ (get_daily_irradiance t api_key lat lon lenD dst start).1 = parse_json body "day")
    ∧ (status ≠ 200 →
      (get_hourly_irradiance t api_key lat lon lenH dst start).1
          = .error (.exception ("Failed to fetch data: HTTP " ++ toString status))
      ∧ (get_daily_irradiance t api_key lat lon lenD dst start).1
          = .error (.exception ("Failed to fetch data: HTTP " ++ toString status))) := by
  rw [get_hourly_valid t api_key lat lon lenH dst start hH hdst hstart,
    get_daily_valid t api_key lat lon lenD dst start hD hdst hstart]
  constructor
  · intro hs
    subst hs
    rw [fetch_and_parse_200 t _ "hour" body (ht _), fetch_and_parse_200 t _ "day" body (ht _)]
    exact ⟨rfl, rfl⟩
  · intro hs
    rw [fetch_and_parse_non200 t _ "hour" status body (ht _) hs,
      fetch_and_parse_non200 t _ "day" status body (ht _) hs]
    exact ⟨rfl, rfl⟩

/-- Witness for C10 at the 2xx status 201. -/
theorem c10_parse_only_on_200_witness :
    ((24 : Int) ∈ ([24, 48, 72] : List Int))
    ∧ ((1 : Int) ∈ ([1, 2, 3] : List Int))
    ∧ ((1 : Int) ∈ ([0, 1] : List Int))
    ∧ ("auto" ∈ (["today", "tomorrow", "auto"] : List String))
    ∧ ((201 : Nat) = 200 →
      (get_hourly_irradiance (fun _ => .success 201 (some (Json.arr []))) "test_key" "50.0" "14.0" 24 1 "auto").1
          = parse_json (some (Json.arr [])) "hour"
      ∧ (get_daily_irradiance (fun _ => .success 201 (some (Json.arr []))) "test_key" "50.0" "14.0" 1 1 "auto").1
          = parse_json (some (Json.arr [])) "day")
    ∧ ((201 : Nat) ≠ 200 →
      (get_hourly_irradiance (fun _ => .success 201 (some (Json.arr []))) "test_key" "50.0" "14.0" 24 1 "auto").1
          = .error (.exception ("Failed to fetch data: HTTP " ++ toString (201 : Nat)))
      ∧ (get_daily_irradiance (fun _ => .success 201 (some (Json.arr []))) "test_key" "50.0" "14.0" 1 1 "auto").1
          = .error (.exception ("Failed to fetch data: HTTP " ++ toString (201 : Nat)))) := by
  refine ⟨by decide, by decide, by decide, by decide, ?_, ?_⟩
  · exact (c10_parse_only_on_200 _ "test_key" "50.0" "14.0" 24 1 1 "auto" 201 (some (Json.arr []))
      (by decide) (by decide) (by decide) (by decide) (fun _ => rfl)).1
  · exact (c10_parse_only_on_200 _ "test_key" "50.0" "14.0" 24 1 1 "auto" 201 (some (Json.arr []))
      (by decide) (by decide) (by decide) (by decide) (fun _ => rfl)).2

/-- Counterexample to C7: a 200 response whose body is not valid JSON makes
the hourly call raise the JSON decode error, whose Python class differs from
the class of the failure raised for a bad server response (shown on the
same parameters via an HTTPError transport); and a 200 response whose body
is the valid JSON array of the string "ab" does not fail at all — it is
silently accepted, each character filling one record field. -/
theorem c7_counterexample :
    (get_hourly_irradiance (fun _ => .success 200 none)
        "test_key" "50.0" "14.0" 24 1 "auto").1 = .error .jsonDecodeError
    ∧ (get_hourly_irradiance (fun _ => .httpError "Internal Server Error" "boom")
        "test_key" "50.0" "14.0" 24 1 "auto").1
        = .error (.exception "Failed get data: Internal Server Error - boom")
    ∧ pyClass PyError.jsonDecodeError
        ≠ pyClass (PyError.exception "Failed get data: Internal Server Error - boom")
    ∧ (get_hourly_irradiance (fun _ => .success 200 (some (.arr [.str "ab"])))
        "test_key" "50.0" "14.0" 24 1 "auto").1
        = .ok (.hourly (HourlyForecastData.mk [HourlyForecast.mk (.str "a") (.str "b")])) := by
  refine ⟨rfl, ?_, by decide, rfl⟩
  rw [get_hourly_valid _ "test_key" "50.0" "14.0" 24 1 "auto"
    (by decide) (by decide) (by decide),
    fetch_and_parse_httpError (fun _ => .httpError "Internal Server Error" "boom")
      (hourly_url "test_key" "50.0" "14.0" 24 1 "auto") "hour"
      "Internal Server Error" "boom" rfl]
  rfl

/-- C7 as amended: malformed JSON surfaces as the JSON decode error, which
in Python is a ValueError subclass — the same catchable class as a
parameter error, not the Exception class used for bad server responses;
valid JSON of the wrong shape surfaces as an IndexError or TypeError from
positional access (or is silently accepted when entries happen to support
indexing); none of these parse failures carry the Exception class. -/
theorem c7_amended_parse_errors (t1 t2 t3 : Transport) (api_key lat lon : String)
    (lenH lenD dst : Int) (start : String) (s : String)
    (hH : lenH ∈ ([24, 48, 72] : List Int)) (hD : lenD ∈ ([1, 2, 3] : List Int))
    (hdst : dst ∈ ([0, 1] : List Int))
    (hstart : start ∈ (["today", "tomorrow", "auto"] : List String))
    (h1 : ∀ u, t1 u = .success 200 none)
    (h2 : ∀ u, t2 u = .success 200 (some (.arr [.arr [.str s]])))
    (h3 : ∀ u, t3 u = .success 200 (some (.num 5))) :
    (get_hourly_irradiance t1 api_key lat lon lenH dst start).1 = .error .jsonDecodeError
    ∧ (get_daily_irradiance t1 api_key lat lon lenD dst start).1 = .error .jsonDecodeError
    ∧ isValueErrorSubclass PyError.jsonDecodeError = true
    ∧ (get_hourly_irradiance t2 api_key lat lon lenH dst start).1 = .error .indexError
    ∧ (get_hourly_irradiance t3 api_key lat lon lenH dst start).1 = .error .typeError
    ∧ (∀ m, pyClass PyError.jsonDecodeError ≠ pyClass (PyError.exception m))
    ∧ (∀ m, pyClass PyError.indexError ≠ pyClass (PyError.exception m))
    ∧ (∀ m, pyClass PyError.typeError ≠ pyClass (PyError.exception m)) := by
  refine ⟨?_, ?_, rfl, ?_, ?_,
    fun m => show ("JSONDecodeError" : String) ≠ "Exception" by decide,
    fun m => show ("IndexError" : String) ≠ "Exception" by decide,
    fun m => show ("TypeError" : String) ≠ "Exception" by decide⟩
  · rw [get_hourly_valid t1 api_key lat lon lenH dst start hH hdst hstart,
      fetch_and_parse_200 t1 _ "hour" _ (h1 _)]
    rfl
  · rw [get_daily_valid t1 api_key lat lon lenD dst start hD hdst hstart,
      fetch_and_parse_200 t1 _ "day" _ (h1 _)]
    rfl
  · rw [get_hourly_valid t2 api_key lat lon lenH dst start hH hdst hstart,
      fetch_and_parse_200 t2 _ "hour" _ (h2 _)]
    rfl
  · rw [get_hourly_valid t3 api_key lat lon lenH dst start hH hdst hstart,
      fetch_and_parse_200 t3 _ "hour" _ (h3 _)]
    rfl

/-- Witness for the amended C7 at concrete transports and parameters. -/
theorem c7_amended_parse_errors_witness :
    ((24 : Int) ∈ ([24, 48, 72] : List Int))
    ∧ ((1 : Int) ∈ ([1, 2, 3] : List Int))
    ∧ ((1 : Int) ∈ ([0, 1] : List Int))
    ∧ ("auto" ∈ (["today", "tomorrow", "auto"] : List String))
    ∧ (get_hourly_irradiance (fun _ => .success 200 none)
        "k2" "49.0" "16.0" 24 1 "auto").1 = .error .jsonDecodeError
    ∧ (get_daily_irradiance (fun _ => .success 200 none)
        "k2" "49.0" "16.0" 1 1 "auto").1 = .error .jsonDecodeError
    ∧ isValueErrorSubclass PyError.jsonDecodeError = true
    ∧ (get_hourly_irradiance (fun _ => .success 200 (some (.arr [.arr [.str "2023-10-03T00:00:00Z"]])))
        "k2" "49.0" "16.0" 24 1 "auto").1 = .error .indexError
    ∧ (get_hourly_irradiance (fun _ => .success 200 (some (.num 5)))
        "k2" "49.0" "16.0" 24 1 "auto").1 = .error .typeError
    ∧ (∀ m, pyClass PyError.jsonDecodeError ≠ pyClass (PyError.exception m))
    ∧ (∀ m, pyClass PyError.indexError ≠ pyClass (PyError.exception m))
    ∧ (∀ m, pyClass PyError.typeError ≠ pyClass (PyError.exception m)) := by
  refine ⟨by decide, by decide, by decide, by decide, ?_⟩
  exact c7_amended_parse_errors
    (fun _ => .success 200 none)
    (fun _ => .success 200 (some (.arr [.arr [.str "2023-10-03T00:00:00Z"]])))
    (fun _ => .success 200 (some (.num 5)))
    "k2" "49.0" "16.0" 24 1 1 "auto" "2023-10-03T00:00:00Z"
    (by decide) (by decide) (by decide) (by decide)
    (fun _ => rfl) (fun _ => rfl) (fun _ => rfl)

/-- Counterexample to C8: the failure raised for a bad HTTP response and
the failure raised for an unreachable transport carry the same Python
exception class — both are the generic Exception — so the two remote
outcomes are not distinct catchable failure kinds; only their message
prefixes differ. -/
theorem c8_counterexample :
    (get_hourly_irradiance (fun _ => .httpError "Internal Server Error" "server broke")
        "test_key" "50.0" "14.0" 24 1 "auto").1
        = .error (.exception "Failed get data: Internal Server Error - server broke")
    ∧ (get_hourly_irradiance (fun _ => .urlError "Server not reachable")
        "test_key" "50.0" "14.0" 24 1 "auto").1
        = .error (.exception "Failed to reach server: Server not reachable")
    ∧ pyClass (PyError.exception "Failed get data: Internal Server Error - server broke")
        = pyClass (PyError.exception "Failed to reach server: Server not reachable") := by
  refine ⟨?_, ?_, rfl⟩
  · rw [get_hourly_valid _ "test_key" "50.0" "14.0" 24 1 "auto"
      (by decide) (by decide) (by decide),
      fetch_and_parse_httpError (fun _ => .httpError "Internal Server Error" "server broke")
        (hourly_url "test_key" "50.0" "14.0" 24 1 "auto") "hour"
        "Internal Server Error" "server broke" rfl]
    rfl
  · rw [get_hourly_valid _ "test_key" "50.0" "14.0" 24 1 "auto"
      (by decide) (by decide) (by decide),
      fetch_and_parse_urlError (fun _ => .urlError "Server not reachable")
        (hourly_url "test_key" "50.0" "14.0" 24 1 "auto") "hour"
        "Server not reachable" rfl]
    rfl

/-- C8 as amended: a bad HTTP response makes both operations raise a
failure whose message is the remote prefix with the status reason and the
response body text; an unreachable transport makes both raise a failure
whose message is the transport prefix with the underlying reason; these
are distinguishable from a parameter error by Python class (Exception
versus ValueError) but from each other only by message content, both being
raised as the same generic Exception class. -/
theorem c8_amended_error_surface (t1 t2 : Transport) (api_key lat lon : String)
    (lenH lenD dst : Int) (start reason body creason : String)
    (hH : lenH ∈ ([24, 48, 72] : List Int)) (hD : lenD ∈ ([1, 2, 3] : List Int))
    (hdst : dst ∈ ([0, 1] : List Int))
    (hstart : start ∈ (["today", "tomorrow", "auto"] : List String))
    (h1 : ∀ u, t1 u = .httpError reason body)
    (h2 : ∀ u, t2 u = .urlError creason) :
    (get_hourly_irradiance t1 api_key lat lon lenH dst start).1
        = .error (.exception ("Failed get data: " ++ reason ++ " - " ++ body))
    ∧ (get_daily_irradiance t1 api_key lat lon lenD dst start).1
        = .error (.exception ("Failed get data: " ++ reason ++ " - " ++ body))
    ∧ (get_hourly_irradiance t2 api_key lat lon lenH dst start).1
        = .error (.exception ("Failed to reach server: " ++ creason))
    ∧ (get_daily_irradiance t2 api_key lat lon lenD dst start).1
        = .error (.exception ("Failed to reach server: " ++ creason))
    ∧ (∀ m m2, pyClass (PyError.valueError m) ≠ pyClass (PyError.exception m2))
    ∧ (∀ m m2, pyClass (PyError.exception m) = pyClass (PyError.exception m2)) := by
  refine ⟨?_, ?_, ?_, ?_,
    fun m m2 => show ("ValueError" : String) ≠ "Exception" by decide,
    fun m m2 => rfl⟩
  · rw [get_hourly_valid t1 api_key lat lon lenH dst start hH hdst hstart,
      fetch_and_parse_httpError t1 _ "hour" _ _ (h1 _)]
  · rw [get_daily_valid t1 api_key lat lon lenD dst start hD hdst hstart,
      fetch_and_parse_httpError t1 _ "day" _ _ (h1 _)]
  · rw [get_hourly_valid t2 api_key lat lon lenH dst start hH hdst hstart,
      fetch_and_parse_urlError t2 _ "hour" _ (h2 _)]
  · rw [get_daily_valid t2 api_key lat lon lenD dst start hD hdst hstart,
      fetch_and_parse_urlError t2 _ "day" _ (h2 _)]

/-- Witness for the amended C8 at concrete transports and parameters. -/
theorem c8_amended_error_surface_witness :
    ((72 : Int) ∈ ([24, 48, 72] : List Int))
    ∧ ((3 : Int) ∈ ([1, 2, 3] : List Int))
    ∧ ((0 : Int) ∈ ([0, 1] : List Int))
    ∧ ("today" ∈ (["today", "tomorrow", "auto"] : List String))
    ∧ (get_hourly_irradiance (fun _ => .httpError "Internal Server Error" "oops")
        "k3" "48.0" "17.0" 72 0 "today").1
        = .error (.exception ("Failed get data: " ++ "Internal Server Error" ++ " - " ++ "oops"))
    ∧ (get_daily_irradiance (fun _ => .httpError "Internal Server Error" "oops")
        "k3" "48.0" "17.0" 3 0 "today").1
        = .error (.exception ("Failed get data: " ++ "Internal Server Error" ++ " - " ++ "oops"))
    ∧ (get_hourly_irradiance (fun _ => .urlError "Server not reachable")
        "k3" "48.0" "17.0" 72 0 "today").1
        = .error (.exception ("Failed to reach server: " ++ "Server not reachable"))
    ∧ (get_daily_irradiance (fun _ => .urlError "Server not reachable")
        "k3" "48.0" "17.0" 3 0 "today").1
        = .error (.exception ("Failed to reach server: " ++ "Server not reachable"))
    ∧ (∀ m m2, pyClass (PyError.valueError m) ≠ pyClass (PyError.exception m2))
    ∧ (∀ m m2, pyClass (PyError.exception m) = pyClass (PyError.exception m2)) := by
  refine ⟨by decide, by decide, by decide, by decide, ?_⟩
  exact c8_amended_error_surface
    (fun _ => .httpError "Internal Server Error" "oops")
    (fun _ => .urlError "Server not reachable")
    "k3" "48.0" "17.0" 72 3 0 "today" "Internal Server Error" "oops" "Server not reachable"
    (by decide) (by decide) (by decide) (by decide)
    (fun _ => rfl) (fun _ => rfl)
